import Mathlib

/-!
Verification development for the forcon job-application service.

The repository is a single Express endpoint that validates a multipart
job-application form, renders it to a PDF and emails the result.  The
definitions below are a shallow embedding of the two PDF generators that
the claims cite (the classic generator of src/unnamed/part_000 and the
modern two-column generator that is the first variant of
src/api/index.js) together with the request handler
(POST /api/job-application) shared by all variants.

Conventions of the embedding:
* JavaScript form values are `Option String`; `none` models `undefined`
  and JavaScript truthiness on strings is `truthy`/`falsy` below.
* Drawing is modelled as an event trace: each draw call appends an
  `Event` carrying the page index, the vertical cursor position at which
  the call happened, and a tag (plus the drawn text where a claim needs
  it).  pdfkit itself (the Rendering Backend) is out of scope.
* Asynchronous failure (axios download errors, nodemailer errors, PDF
  stream errors) is modelled with `Except`/`Bool` outcome oracles in
  `Env`.
-/

/-- JavaScript string truthiness: `undefined` and `""` are falsy. -/
def falsy : Option String → Bool
  | none => true
  | some s => s.isEmpty

/-- JavaScript string truthiness (negation of `falsy`). -/
def truthy (v : Option String) : Bool := !falsy v

/-- JavaScript `v || d` for string `v` and default `d`. -/
def jsOr (v : Option String) (d : String) : String :=
  if falsy v then d else v.getD ""

/-- JavaScript template interpolation of a possibly-undefined value:
`${undefined}` renders as the text "undefined". -/
def jsT (v : Option String) : String := v.getD "undefined"

/-- `id_card.replace(/\D/g, '')` — strip every non-digit character
(src/api/index.js line 668, src/unnamed/part_000 line 421). -/
def normalizeIdCard (s : String) : String :=
  String.mk (s.toList.filter Char.isDigit)

/-- Characters allowed in each part of the email pattern
`[^\s@]` (no whitespace, no `@`). -/
def emailChar (c : Char) : Bool :=
  !(c = ' ' || c = '\t' || c = '\n' || c = '\r' || c = '\x0b' || c = '\x0c') && c ≠ '@'

/-- The local part `[^\s@]+`. -/
def emailLocalOk (cs : List Char) : Bool :=
  !cs.isEmpty && cs.all emailChar

/-- The domain part `[^\s@]+\.[^\s@]+`: all characters allowed and some
dot has a nonempty prefix and a nonempty suffix. -/
def emailDomainOk (cs : List Char) : Bool :=
  cs.all emailChar &&
    (List.range cs.length).any (fun i =>
      cs.getD i ' ' = '.' && decide (0 < i) && decide (i + 1 < cs.length))

/-- `/^[^\s@]+@[^\s@]+\.[^\s@]+$/.test(email)` (src/api/index.js
line 676): a nonempty `@`-free, whitespace-free local part, one `@`,
then a domain of allowed characters containing an interior dot (the
`[^\s@]` classes of the domain exclude any further `@`). -/
def emailRegexTest (s : String) : Bool :=
  let cs := s.toList
  let lp := cs.takeWhile (fun c => c ≠ '@')
  match cs.drop lp.length with
  | '@' :: dp => emailLocalOk lp && emailDomainOk dp
  | _ => false

/-- The raw multipart form submission (`req.body` plus `req.files`).
Every form field arrives as a string or is absent; `photo`/`resume`
record whether the corresponding file field was uploaded. -/
structure Request where
  position : Option String := none
  fullname_th : Option String := none
  fullname_en : Option String := none
  gender : Option String := none
  birthdate : Option String := none
  age : Option String := none
  nationality : Option String := none
  ethnicity : Option String := none
  religion : Option String := none
  id_card : Option String := none
  phone : Option String := none
  line_id : Option String := none
  email : Option String := none
  address : Option String := none
  subdistrict : Option String := none
  district : Option String := none
  province : Option String := none
  zipcode : Option String := none
  edu_high_school : Option String := none
  edu_high_major : Option String := none
  edu_high_year : Option String := none
  edu_vocational : Option String := none
  edu_vocational_major : Option String := none
  edu_vocational_year : Option String := none
  edu_bachelor : Option String := none
  edu_bachelor_major : Option String := none
  edu_bachelor_year : Option String := none
  edu_other : Option String := none
  edu_other_major : Option String := none
  edu_other_year : Option String := none
  education_used : Option String := none
  work1_company : Option String := none
  work1_position : Option String := none
  work1_start : Option String := none
  work1_end : Option String := none
  work1_reason : Option String := none
  work2_company : Option String := none
  work2_position : Option String := none
  work2_start : Option String := none
  work2_end : Option String := none
  work2_reason : Option String := none
  work3_company : Option String := none
  work3_position : Option String := none
  work3_start : Option String := none
  work3_end : Option String := none
  work3_reason : Option String := none
  has_disease : Option String := none
  disease_detail : Option String := none
  has_criminal_record : Option String := none
  criminal_detail : Option String := none
  special_skills : Option String := none
  expected_salary : Option String := none
  start_date : Option String := none
  motivation : Option String := none
  photo : Bool := false
  resume : Bool := false
deriving DecidableEq, Repr, Inhabited

/-- `application.personal_info.address`. -/
structure Address where
  full : Option String
  subdistrict : Option String
  district : Option String
  province : Option String
  zipcode : Option String
deriving DecidableEq, Repr

/-- `application.personal_info`; `id_card` holds the normalized digit
string. -/
structure PersonalInfo where
  fullname_th : Option String
  fullname_en : Option String
  gender : Option String
  birthdate : Option String
  age : Option String
  nationality : Option String
  ethnicity : Option String
  religion : Option String
  id_card : String
  phone : Option String
  line_id : Option String
  email : Option String
  address : Address
deriving DecidableEq, Repr

/-- One education slot `{ school, major, year }`. -/
structure EduSlot where
  school : Option String
  major : Option String
  year : Option String
deriving DecidableEq, Repr

/-- `application.education`. -/
structure Education where
  high_school : EduSlot
  vocational : EduSlot
  bachelor : EduSlot
  other : EduSlot
  education_used : Option String
deriving DecidableEq, Repr

/-- One work-experience entry; `end_` models the JavaScript field
named `end`. -/
structure WorkEntry where
  company : Option String
  position : Option String
  start : Option String
  end_ : Option String
  reason : Option String
deriving DecidableEq, Repr

/-- `application.additional_info`. -/
structure AdditionalInfo where
  has_disease : Option String
  disease_detail : Option String
  has_criminal_record : Option String
  criminal_detail : Option String
  special_skills : Option String
  expected_salary : Option String
  start_date : Option String
  motivation : Option String
deriving DecidableEq, Repr

/-- The application aggregate built by the handler. -/
structure Application where
  id : String
  position : Option String
  personal_info : PersonalInfo
  education : Education
  work_experience : List WorkEntry
  additional_info : AdditionalInfo
  submitted_at : String
  status : String
deriving DecidableEq, Repr

/-- The `application` object literal of the handler
(src/api/index.js lines 692-740): `id` is time based, `id_card` stores
the stripped digits, the three fixed work slots are compacted with
`.filter(w => w.company)`. -/
def mkApplication (now : Nat) (r : Request) : Application :=
  { id := "APP" ++ toString now
    position := r.position
    personal_info :=
      { fullname_th := r.fullname_th
        fullname_en := r.fullname_en
        gender := r.gender
        birthdate := r.birthdate
        age := r.age
        nationality := r.nationality
        ethnicity := r.ethnicity
        religion := r.religion
        id_card := normalizeIdCard (r.id_card.getD "")
        phone := r.phone
        line_id := r.line_id
        email := r.email
        address :=
          { full := r.address
            subdistrict := r.subdistrict
            district := r.district
            province := r.province
            zipcode := r.zipcode } }
    education :=
      { high_school := ⟨r.edu_high_school, r.edu_high_major, r.edu_high_year⟩
        vocational := ⟨r.edu_vocational, r.edu_vocational_major, r.edu_vocational_year⟩
        bachelor := ⟨r.edu_bachelor, r.edu_bachelor_major, r.edu_bachelor_year⟩
        other := ⟨r.edu_other, r.edu_other_major, r.edu_other_year⟩
        education_used := r.education_used }
    work_experience :=
      ([⟨r.work1_company, r.work1_position, r.work1_start, r.work1_end, r.work1_reason⟩,
        ⟨r.work2_company, r.work2_position, r.work2_start, r.work2_end, r.work2_reason⟩,
        ⟨r.work3_company, r.work3_position, r.work3_start, r.work3_end, r.work3_reason⟩] :
          List WorkEntry).filter (fun w => truthy w.company)
    additional_info :=
      { has_disease := r.has_disease
        disease_detail := r.disease_detail
        has_criminal_record := r.has_criminal_record
        criminal_detail := r.criminal_detail
        special_skills := r.special_skills
        expected_salary := r.expected_salary
        start_date := r.start_date
        motivation := r.motivation }
    submitted_at := toString now
    status := "pending" }

/-- 400 message for missing required fields. -/
def msgRequired : String := "กรุณากรอกข้อมูลที่จำเป็นให้ครบถ้วน"

/-- 400 message for a national ID that does not strip to 13 digits. -/
def msgIdCard : String := "หมายเลขบัตรประชาชนต้องเป็นตัวเลข 13 หลัก"

/-- 400 message for a malformed email. -/
def msgEmail : String := "รูปแบบอีเมลไม่ถูกต้อง"

/-- 400 message for a missing photo upload. -/
def msgPhoto : String := "กรุณาแนบรูปถ่ายหน้าตรง"

/-- 200 success message. -/
def msgSuccess : String := "ส่งใบสมัครงานสำเร็จ! เราจะติดต่อกลับ ภายใน 7 วันทำการ"

/-- 500 message of the catch-all handler branch. -/
def msgServerError : String := "เกิดข้อผิดพลาด กรุณาลองใหม่อีกครั้ง"

/-- The JSON responses the endpoint can produce. -/
inductive Response where
  | ok (message : String) (application_id : String)
  | badRequest (message : String)
  | serverError (message : String)
deriving DecidableEq, Repr

/-- `true` exactly on a 400 response. -/
def Response.isBadRequest : Response → Bool
  | .badRequest _ => true
  | _ => false

/-- The observable side effects of one request, in program order. -/
inductive Effect where
  | generatePDF
  | sendApplicantEmail
  | sendAdminEmail
deriving DecidableEq, Repr

/-- Opaque font bytes. -/
abbrev Font := String

/-- Oracles for the external world of one request: outcomes of the
font downloads and of the two SMTP deliveries, plus the clock. -/
structure Env where
  fontPrimary : Option Font
  fontPrimaryBold : Option Font
  fontFallback : Option Font
  applicantEmailOk : Bool
  adminEmailOk : Bool
  now : Nat
deriving DecidableEq, Repr

/-- `downloadThaiFont` (src/api/index.js lines 38-81): return the cache
when populated; otherwise try the primary URL (falling back to the
regular weight when only the bold download fails), then the fallback
URL, and throw `Cannot download Thai font` when both fail. -/
def downloadThaiFont (cache : Option (Font × Font)) (env : Env) :
    Except String (Font × Font) :=
  match cache with
  | some fonts => .ok fonts
  | none =>
    match env.fontPrimary with
    | some regular =>
      match env.fontPrimaryBold with
      | some bold => .ok (regular, bold)
      | none => .ok (regular, regular)
    | none =>
      match env.fontFallback with
      | some regular => .ok (regular, regular)
      | none => .error "Cannot download Thai font"

/-- `transporter.sendMail`: delivery either succeeds or throws. -/
def transporterSendMail (delivered : Bool) : Except String Unit :=
  if delivered then .ok () else .error "smtp failure"

/-- `sendEmail` (src/api/index.js lines 87-101): wraps the transporter
in try/catch and reports failure by returning `false`, never
rethrowing. -/
def sendEmail (delivered : Bool) : Bool :=
  match transporterSendMail delivered with
  | .ok _ => true
  | .error _ => false

/-- Section tags of the classic generator (src/unnamed/part_000). -/
inductive SectionTag where
  | personal
  | education
  | work
  | additional
deriving DecidableEq, Repr

/-- The four fields of one work-experience record block. -/
inductive WField where
  | company
  | position
  | duration
  | reason
deriving DecidableEq, Repr

/-- Section headers of the modern generator (first variant of
src/api/index.js). -/
inductive MSec where
  | address
  | education
  | additional
  | work
  | workCont
  | motivation
deriving DecidableEq, Repr

/-- Education slots, used to tag modern education items. -/
inductive EduLevel where
  | highSchool
  | vocational
  | bachelor
  | other
deriving DecidableEq, Repr

/-- Tags of the draw events both generators can emit.  Classic-only
tags come first; tags prefixed with `m` belong to the modern
generator. -/
inductive EKind where
  | headerTitle
  | headerSub
  | appId
  | sectionHeader (s : SectionTag)
  | field (label : String) (drawn : String)
  | ageNote
  | wtitle (i : Nat)
  | wfield (i : Nat) (f : WField) (drawn : String)
  | noData
  | motivLabel
  | motivText
  | footer
  | mbanner
  | mcard (i : Nat)
  | msec (s : MSec)
  | maddrText (i : Nat)
  | meduItem (l : EduLevel)
  | maddItem (i : Nat)
  | mworkBullet (i : Nat)
  | mwork (i : Nat) (f : WField)
  | mnoWork
  | mmotivText
  | mfooter
deriving DecidableEq, Repr

/-- The work-experience record index carried by a classic work event,
when any. -/
def recIdxOf : EKind → Option Nat
  | .wtitle i => some i
  | .wfield i _ _ => some i
  | _ => none

/-- One draw call: the page it lands on, the vertical position at which
it was issued, and what it draws. -/
structure Event where
  page : Nat
  y : Nat
  kind : EKind
deriving DecidableEq, Repr

/-- Layout state: current page index, vertical cursor, and the draw
calls issued so far. -/
structure St where
  page : Nat
  y : Nat
  evs : List Event
deriving DecidableEq, Repr

/-- Draw at the current cursor position. -/
def emit (k : EKind) (st : St) : St :=
  { st with evs := st.evs ++ [⟨st.page, st.y, k⟩] }

/-- Draw at a fixed vertical coordinate (footers). -/
def emitAt (ypos : Nat) (k : EKind) (st : St) : St :=
  { st with evs := st.evs ++ [⟨st.page, ypos, k⟩] }

/-- Advance the vertical cursor (`yPos += n`). -/
def adv (n : Nat) (st : St) : St := { st with y := st.y + n }

/-- Set the vertical cursor to an absolute position. -/
def setY (n : Nat) (st : St) : St := { st with y := n }

/-- `if (yPos > t) { doc.addPage(); yPos = 50; }` — the classic
pagination check (src/unnamed/part_000 lines 131, 180, 207, 221). -/
def checkPageAt (t : Nat) (st : St) : St :=
  if t < st.y then { st with page := st.page + 1, y := 50 } else st

/-- `doc.addPage()` followed by a cursor reset, as the modern generator
does (reset to 60). -/
def newPageTo (reset : Nat) (st : St) : St :=
  { st with page := st.page + 1, y := reset }

/-- `addField(doc, label, value, y)` (src/unnamed/part_000 lines
303-313) followed by the caller's `yPos += n`: always draws the label
and `value || '-'`, then the caller advances the cursor by a fixed
amount whether or not the value was present. -/
def fieldEvN (label : String) (v : Option String) (n : Nat) (st : St) : St :=
  adv n (emit (.field label (jsOr v "-")) st)

/-- `addField` as called from inside the work-experience loop: the
same always-draws behavior, with the event tagged by the index of the
record being rendered (the drawn text is still `value || '-'`). -/
def wfieldEvN (i : Nat) (f : WField) (v : Option String) (n : Nat) (st : St) : St :=
  adv n (emit (.wfield i f (jsOr v "-")) st)

/-- A call-site-guarded field: `if (x) { addField(...); yPos += n; }`. -/
def fieldIfEv (b : Bool) (label : String) (v : Option String) (n : Nat) (st : St) : St :=
  if b then fieldEvN label v n st else st

/-- A guarded field with a nested guarded detail field, the shape of
the disease and criminal-record blocks (src/unnamed/part_000 lines
230-249). -/
def fieldPairIf (b1 : Bool) (l1 : String) (v1 : Option String)
    (b2 : Bool) (l2 : String) (v2 : Option String) (st : St) : St :=
  if b1 then
    (if b2 then fieldEvN l2 v2 20 (fieldEvN l1 v1 20 st)
     else fieldEvN l1 v1 20 st)
  else st

/-- The motivation block (src/unnamed/part_000 lines 266-280): label,
`yPos += 15`, then the wrapped text with no further advance. -/
def motivStep (v : Option String) (st : St) : St :=
  if truthy v then emit .motivText (adv 15 (emit .motivLabel st)) else st

/-- Classic generator, banner and application-id line
(src/unnamed/part_000 lines 67-89): fixed-coordinate header texts, then
`yPos = 130` and the id line, then `yPos += 30`. -/
def classicHeader : St :=
  (⟨0, 0, []⟩ : St)
    |> emitAt 30 .headerTitle
    |> emitAt 65 .headerSub
    |> setY 130
    |> emit .appId
    |> adv 30

/-- Classic generator, personal-information section
(src/unnamed/part_000 lines 91-128): header, then an unguarded run of
fields at 20 points each — only `fullname_en` is guarded — ending with
the address and the composite location line (+30). -/
def classicPersonal (app : Application) (st : St) : St :=
  st
    |> emit (.sectionHeader .personal)
    |> adv 25
    |> fieldEvN "Position Applied - ตำแหน่งที่สมัคร:" app.position 20
    |> fieldEvN "Full Name (Thai):" app.personal_info.fullname_th 20
    |> fieldIfEv (truthy app.personal_info.fullname_en)
        "Full Name (English):" app.personal_info.fullname_en 20
    |> fieldEvN "Gender - เพศ:" app.personal_info.gender 20
    |> emit (.field "Date of Birth:" (jsOr app.personal_info.birthdate "-"))
    |> emit .ageNote
    |> adv 20
    |> fieldEvN "Nationality - สัญชาติ:" app.personal_info.nationality 20
    |> fieldEvN "Ethnicity - เชื้อชาติ:" app.personal_info.ethnicity 20
    |> fieldEvN "Religion - ศาสนา:" app.personal_info.religion 20
    |> fieldEvN "ID Card Number:" (some app.personal_info.id_card) 20
    |> fieldEvN "Phone:" app.personal_info.phone 20
    |> fieldEvN "LINE ID:" app.personal_info.line_id 20
    |> fieldEvN "Email:" app.personal_info.email 20
    |> fieldEvN "Address:" app.personal_info.address.full 20
    |> fieldEvN "Location:"
        (some (jsT app.personal_info.address.subdistrict ++ ", " ++
               jsT app.personal_info.address.district ++ ", " ++
               jsT app.personal_info.address.province ++ " " ++
               jsT app.personal_info.address.zipcode)) 30

/-- One education slot line of the classic generator: guarded on the
school, drawing the composite `school (major || '-') - year || '-'`. -/
def classicEduSlot (label : String) (slot : EduSlot) (st : St) : St :=
  fieldIfEv (truthy slot.school) label
    (some (jsT slot.school ++ " (" ++ jsOr slot.major "-" ++ ") - " ++
           jsOr slot.year "-")) 20 st

/-- Classic generator, education section (src/unnamed/part_000 lines
130-183): page check, header, four guarded slots, the guarded
`education_used` line, then `yPos += 10`. -/
def classicEduSec (app : Application) (st : St) : St :=
  st
    |> checkPageAt 650
    |> emit (.sectionHeader .education)
    |> adv 25
    |> classicEduSlot "High School:" app.education.high_school
    |> classicEduSlot "Vocational:" app.education.vocational
    |> classicEduSlot "Bachelor Degree:" app.education.bachelor
    |> classicEduSlot "Other:" app.education.other
    |> fieldIfEv (truthy app.education.education_used)
        "Education Used for Application:" app.education.education_used 20
    |> adv 10

/-- One work-experience record of the classic generator
(src/unnamed/part_000 lines 190-210): the `Experience N:` title (+18),
four fields (+20, +20, +20, +25), then the page check — the check runs
only after the whole record has been drawn. -/
def recordStep (i : Nat) (w : WorkEntry) (st : St) : St :=
  st
    |> emit (.wtitle i)
    |> adv 18
    |> wfieldEvN i .company w.company 20
    |> wfieldEvN i .position (some (jsOr w.position "-")) 20
    |> wfieldEvN i .duration
        (some (jsOr w.start "-" ++ " to " ++ jsOr w.end_ "-")) 20
    |> wfieldEvN i .reason (some (jsOr w.reason "-")) 25
    |> checkPageAt 650

/-- `data.work_experience.forEach(...)` of the classic generator. -/
def workLoop (i : Nat) (ws : List WorkEntry) (st : St) : St :=
  match ws with
  | [] => st
  | w :: rest => workLoop (i + 1) rest (recordStep i w st)

/-- Classic generator, work-experience section (src/unnamed/part_000
lines 179-218): page check, header, then either the record loop or the
`No work experience provided` placeholder. -/
def classicWorkSec (app : Application) (st : St) : St :=
  if app.work_experience.isEmpty then
    st |> checkPageAt 650 |> emit (.sectionHeader .work) |> adv 25
       |> emit .noData |> adv 25
  else
    workLoop 0 app.work_experience
      (st |> checkPageAt 650 |> emit (.sectionHeader .work) |> adv 25)

/-- Classic generator, additional-information section
(src/unnamed/part_000 lines 220-280): page check at 600, header, the
two guarded pairs, three guarded fields and the motivation block. -/
def classicAddSec (app : Application) (st : St) : St :=
  st
    |> checkPageAt 600
    |> emit (.sectionHeader .additional)
    |> adv 25
    |> fieldPairIf (truthy app.additional_info.has_disease)
        "มีโรคประจำตัวหรือไม่:" app.additional_info.has_disease
        (truthy app.additional_info.disease_detail)
        "รายละเอียดโรคประจำตัว:" app.additional_info.disease_detail
    |> fieldPairIf (truthy app.additional_info.has_criminal_record)
        "เคยต้องโทษหรือไม่:" app.additional_info.has_criminal_record
        (truthy app.additional_info.criminal_detail)
        "รายละเอียดคดี:" app.additional_info.criminal_detail
    |> fieldIfEv (truthy app.additional_info.special_skills)
        "Special Skills:" app.additional_info.special_skills 20
    |> fieldIfEv (truthy app.additional_info.expected_salary)
        "Expected Salary:"
        (some (jsT app.additional_info.expected_salary ++ " THB")) 20
    |> fieldIfEv (truthy app.additional_info.start_date)
        "Available Start Date:" app.additional_info.start_date 20
    |> motivStep app.additional_info.motivation

/-- The whole classic generator `generateJobApplicationPDF`
(src/unnamed/part_000 lines 53-319): header, the four sections in
order, then one footer drawn at the fixed coordinate 750 on whatever
page is current when rendering ends. -/
def classicRender (app : Application) : St :=
  classicHeader
    |> classicPersonal app
    |> classicEduSec app
    |> classicWorkSec app
    |> classicAddSec app
    |> emitAt 750 .footer

/-- Modern generator, header, info cards and address/education part of
the left column (src/api/index.js lines 130-308): banner, `yPos = 210`,
three cards, `yPos += 110`, address section with fixed advances, then
the education header and the four guarded education items (+45
each). -/
def meduStep (slot : EduSlot) (l : EduLevel) (st : St) : St :=
  if truthy slot.school then adv 45 (emit (.meduItem l) st) else st

/-- Modern generator, banner, cards, address section and education
header (src/api/index.js lines 130-268); the cursor here is `leftY`,
which reaches exactly 447 whatever the application contains. -/
def mLeftHdr : St :=
  (⟨0, 0, []⟩ : St)
    |> emit .mbanner
    |> setY 210
    |> emit (.mcard 0)
    |> emit (.mcard 1)
    |> emit (.mcard 2)
    |> adv 110
    |> emit (.msec .address)
    |> adv 25
    |> emit (.maddrText 0)
    |> adv 22
    |> emit (.maddrText 1)
    |> adv 15
    |> emit (.maddrText 2)
    |> adv 35
    |> emit (.msec .education)
    |> adv 30

/-- Modern generator left column through the education items. -/
def mLeftPre (app : Application) : St :=
  mLeftHdr
    |> meduStep app.education.high_school .highSchool
    |> meduStep app.education.vocational .vocational
    |> meduStep app.education.bachelor .bachelor
    |> meduStep app.education.other .other

/-- One modern additional-info item: `addDetailItem` plus
`leftY += 22`. -/
def maddStep (b : Bool) (i : Nat) (st : St) : St :=
  if b then adv 22 (emit (.maddItem i) st) else st

/-- The guard of the modern disease line (src/api/index.js line 333):
`has_disease && has_disease !== 'ไม่มี'`. -/
def mDiseaseGuard (v : Option String) : Bool :=
  match v with
  | none => false
  | some s => !s.isEmpty && s ≠ "ไม่มี"

/-- Modern generator, additional-info part of the left column
(src/api/index.js lines 310-338): the whole section — header included —
is guarded by `leftY < 650`. -/
def mAddSec (app : Application) (st : St) : St :=
  if st.y < 650 then
    st
      |> emit (.msec .additional)
      |> adv 25
      |> maddStep (truthy app.additional_info.special_skills) 0
      |> maddStep (truthy app.additional_info.expected_salary) 1
      |> maddStep (truthy app.additional_info.start_date) 2
      |> maddStep (mDiseaseGuard app.additional_info.has_disease) 3
  else st

/-- The guarded reason line of one modern work record
(src/api/index.js lines 381-388). -/
def mRecordWreason (i : Nat) (w : WorkEntry) (st : St) : St :=
  if truthy w.reason then st |> emit (.mwork i .reason) |> adv 14 else st

/-- The modern in-loop page check (src/api/index.js lines 393-398):
`rightY > 700 && index < length - 1`, resetting the cursor to 60 and
drawing a continuation header after the break. -/
def mRecordCheck (total i : Nat) (st : St) : St :=
  if 700 < st.y ∧ i < total - 1 then
    st |> newPageTo 60 |> emit (.msec .workCont) |> adv 30
  else st

/-- One modern work-experience entry (src/api/index.js lines 348-398):
bullet, position (+17), company (+16), duration (+14), guarded reason
(+14), +20, then — after drawing — the page check. -/
def mRecordStep (total i : Nat) (w : WorkEntry) (st : St) : St :=
  st
    |> emit (.mworkBullet i)
    |> emit (.mwork i .position)
    |> adv 17
    |> emit (.mwork i .company)
    |> adv 16
    |> emit (.mwork i .duration)
    |> adv 14
    |> mRecordWreason i w
    |> adv 20
    |> mRecordCheck total i

/-- `data.work_experience.forEach(...)` of the modern generator. -/
def mWorkLoop (total i : Nat) (ws : List WorkEntry) (st : St) : St :=
  match ws with
  | [] => st
  | w :: rest => mWorkLoop total (i + 1) rest (mRecordStep total i w st)

/-- Modern generator, right-column header (src/api/index.js lines
340-345): `rightY = 320` (the shared `yPos`) and the work-experience
section title. -/
def mWorkHdr (st : St) : St :=
  st |> setY 320 |> emit (.msec .work) |> adv 30

/-- Modern generator, work-experience body (src/api/index.js lines
347-406): the record loop, or the `ไม่มีประสบการณ์ทำงาน` placeholder
when the list is empty. -/
def mWorkBody (app : Application) (st : St) : St :=
  if app.work_experience.isEmpty then st |> emit .mnoWork |> adv 30
  else mWorkLoop app.work_experience.length 0 app.work_experience st

/-- Modern generator, guarded motivation block (src/api/index.js lines
409-431): only drawn for a truthy motivation, with a page check at 600
resetting the cursor to 60. -/
def mMotiv (app : Application) (st : St) : St :=
  if truthy app.additional_info.motivation then
    (if 600 < st.y then newPageTo 60 st else st)
      |> emit (.msec .motivation)
      |> adv 25
      |> emit .mmotivText
  else st

/-- Modern generator, right column. -/
def mRight (app : Application) (st : St) : St :=
  st |> mWorkHdr |> mWorkBody app |> mMotiv app

/-- The whole modern generator `generateJobApplicationPDF` (first
variant of src/api/index.js, lines 107-570): header and cards, left
column, right column, then the footer at the fixed coordinate 802 on
the current page. -/
def renderModern (app : Application) : St :=
  mLeftPre app
    |> mAddSec app
    |> mRight app
    |> emitAt 802 .mfooter

/-- `generateJobApplicationPDF` seen from the handler: the font
download is awaited before the document is opened, so a download
failure aborts the render before any page exists and no bytes are
produced; otherwise the draw trace is the document. -/
def generateJobApplicationPDF (cache : Option (Font × Font)) (env : Env)
    (app : Application) : Except String (List Event) :=
  match downloadThaiFont cache env with
  | .error e => .error e
  | .ok _fonts => .ok (renderModern app).evs

/-- `!position || !fullname_th || ... || !education_used`
(src/api/index.js line 661). -/
def requiredMissing (r : Request) : Bool :=
  falsy r.position || falsy r.fullname_th || falsy r.gender ||
  falsy r.birthdate || falsy r.age || falsy r.nationality ||
  falsy r.ethnicity || falsy r.religion || falsy r.id_card ||
  falsy r.phone || falsy r.line_id || falsy r.email ||
  falsy r.education_used

/-- Disjunction of the four validation failures, in the order the
handler tests them. -/
def validationFails (r : Request) : Bool :=
  requiredMissing r ||
  (normalizeIdCard (r.id_card.getD "")).length != 13 ||
  !emailRegexTest (r.email.getD "") ||
  !r.photo

/-- The POST /api/job-application handler (src/api/index.js lines
598-934): the four validation checks in order, each returning 400
before anything else happens; then the application object, the PDF
render (a rejection is caught and surfaces as 500), and the two
best-effort emails whose results are ignored before the 200
response. -/
def handler (env : Env) (cache : Option (Font × Font)) (r : Request) :
    Response × List Effect :=
  if requiredMissing r then (.badRequest msgRequired, [])
  else if (normalizeIdCard (r.id_card.getD "")).length != 13 then
    (.badRequest msgIdCard, [])
  else if !emailRegexTest (r.email.getD "") then (.badRequest msgEmail, [])
  else if !r.photo then (.badRequest msgPhoto, [])
  else
    let application := mkApplication env.now r
    match generateJobApplicationPDF cache env application with
    | .error _ => (.serverError msgServerError, [.generatePDF])
    | .ok _pdf =>
      let _applicantSent := sendEmail env.applicantEmailOk
      let _adminSent := sendEmail env.adminEmailOk
      (.ok msgSuccess application.id,
        [.generatePDF, .sendApplicantEmail, .sendAdminEmail])

/-- `yPos += unitHeight` followed by the pagination check — the unit
placement pattern of the classic generator (src/unnamed/part_000 lines
128-134 and 204-210). -/
def placeUnit (h : Nat) (st : St) : St := checkPageAt 650 (adv h st)

/-- A fully successful environment. -/
def env0 : Env :=
  { fontPrimary := some "SarabunRegular"
    fontPrimaryBold := some "SarabunBold"
    fontFallback := some "SarabunFallbackRegular"
    applicantEmailOk := true
    adminEmailOk := true
    now := 1700000000000 }

/-- Environment in which every font download fails. -/
def envNoFonts : Env :=
  { env0 with fontPrimary := none, fontPrimaryBold := none, fontFallback := none }

/-- Environment in which both SMTP deliveries fail. -/
def envEmailDown : Env :=
  { env0 with applicantEmailOk := false, adminEmailOk := false }

/-- A submission that passes all four validation checks. -/
def reqValid : Request :=
  { position := some "Software Engineer"
    fullname_th := some "สมชาย ใจดี"
    gender := some "ชาย"
    birthdate := some "1990-01-01"
    age := some "30"
    nationality := some "ไทย"
    ethnicity := some "ไทย"
    religion := some "พุทธ"
    id_card := some "1-2345-67890-12-3"
    phone := some "0812345678"
    line_id := some "somchai"
    email := some "somchai@example.com"
    education_used := some "ปริญญาตรี"
    photo := true }

/-- Valid except that the national ID strips to 12 digits. -/
def req12 : Request := { reqValid with id_card := some "1-2345-67890-12" }

/-- Valid except that the national ID strips to 14 digits. -/
def req14 : Request := { reqValid with id_card := some "1-2345-67890-12-34" }

/-- Both a missing required field and a 12-digit national ID. -/
def reqMissingAndBadId : Request :=
  { reqValid with position := none, id_card := some "123456789012" }

/-- Valid except for the photo upload. -/
def reqNoPhoto : Request := { reqValid with photo := false }

/-- Valid except for the email shape. -/
def reqBadEmail : Request := { reqValid with email := some "not-an-email" }

/-- A valid submission carrying three complete work-experience
entries. -/
def reqThreeJobs : Request :=
  { reqValid with
    work1_company := some "Alpha Trading"
    work1_position := some "Clerk"
    work1_start := some "2015"
    work1_end := some "2017"
    work1_reason := some "relocation"
    work2_company := some "Beta Foods"
    work2_position := some "Cashier"
    work2_start := some "2017"
    work2_end := some "2019"
    work2_reason := some "career growth"
    work3_company := some "Gamma Logistics"
    work3_position := some "Driver"
    work3_start := some "2019"
    work3_end := some "2023"
    work3_reason := some "contract ended" }

/-- A valid submission with exactly one work-experience entry. -/
def reqOneJob : Request :=
  { reqValid with
    work1_company := some "Alpha Trading"
    work1_position := some "Clerk" }

/-- Application with three work records — its classic render spills
onto a second page. -/
def appMulti : Application := mkApplication 0 reqThreeJobs

/-- Application with one work record and no education entries. -/
def appOneJob : Application := mkApplication 0 reqOneJob

/-- Application with no work experience at all. -/
def appNoWork : Application := mkApplication 0 reqValid

/-- Recognizes a modern education-item event. -/
def isEduItem : EKind → Bool
  | .meduItem _ => true
  | _ => false

/-- Kinds that carry no work-record index and are not the classic
footer — everything either generator emits outside the classic
work-experience loop and the final footer call. -/
def GoodK (k : EKind) : Prop := recIdxOf k = none ∧ k ≠ .footer

/-- One rendering segment: the new state extends the old event list,
the page index never decreases, and every appended event is `GoodK`
and lands on a page that exists at the end of the segment. -/
def SegOk (st st' : St) : Prop :=
  (∃ l, st'.evs = st.evs ++ l ∧ ∀ e ∈ l, GoodK e.kind ∧ e.page ≤ st'.page)
  ∧ st.page ≤ st'.page

/-- The weaker fact that a rendering step only appends events. -/
def ExtEvs (st st' : St) : Prop := ∃ l, st'.evs = st.evs ++ l

/-- Claim C4 (confirmed): a unit whose height exactly equals the space
remaining before the page-content threshold is placed on the current
page with no break, and the check emits a break exactly when the
cursor strictly exceeds the threshold (`if (yPos > 650)`). -/
theorem c4_boundary_tie_break (st : St) (h : Nat) (hfit : st.y + h = 650) :
    placeUnit h st = { st with y := 650 } ∧
    ∀ st' : St, (checkPageAt 650 st').page = st'.page + 1 ↔ 650 < st'.y := by
  constructor
  · unfold placeUnit checkPageAt adv
    simp only [hfit]
    simp
  · intro st'
    unfold checkPageAt
    split
    · next hgt => simpa using hgt
    · next hle => simp; omega

/-- Witness for C4 at the concrete state `page 0, cursor 600` and a
unit of height exactly 50. -/
theorem c4_witness :
    placeUnit 50 (⟨0, 600, []⟩ : St) = (⟨0, 650, []⟩ : St) ∧
    ((checkPageAt 650 (⟨0, 651, []⟩ : St)).page = 0 + 1 ↔ (650:Nat) < 651) := by
  refine ⟨(c4_boundary_tie_break ⟨0, 600, []⟩ 50 rfl).1, ?_⟩
  exact (c4_boundary_tie_break ⟨0, 600, []⟩ 50 rfl).2 ⟨0, 651, []⟩

/-- A request passing no validation failure passes each of the four
checks individually. -/
lemma validation_passes (r : Request) (hv : validationFails r = false) :
    requiredMissing r = false ∧
    (normalizeIdCard (r.id_card.getD "")).length = 13 ∧
    emailRegexTest (r.email.getD "") = true ∧ r.photo = true := by
  simp only [validationFails, Bool.or_eq_false_iff, bne_eq_false_iff_eq,
    Bool.not_eq_false', Bool.not_eq_true'] at hv
  exact ⟨hv.1.1.1, hv.1.1.2, hv.1.2, hv.2⟩

/-- Claim C10 (confirmed): when several aspects of a request are
invalid, the 400 message is that of the first failing check in the
fixed order: required fields, then national-ID digit count, then email
shape, then photo presence. -/
theorem c10_validation_precedence (env : Env) (cache : Option (Font × Font))
    (r : Request) :
    (requiredMissing r = true → handler env cache r = (.badRequest msgRequired, []))
    ∧ (requiredMissing r = false →
        (normalizeIdCard (r.id_card.getD "")).length ≠ 13 →
        handler env cache r = (.badRequest msgIdCard, []))
    ∧ (requiredMissing r = false →
        (normalizeIdCard (r.id_card.getD "")).length = 13 →
        emailRegexTest (r.email.getD "") = false →
        handler env cache r = (.badRequest msgEmail, []))
    ∧ (requiredMissing r = false →
        (normalizeIdCard (r.id_card.getD "")).length = 13 →
        emailRegexTest (r.email.getD "") = true →
        r.photo = false →
        handler env cache r = (.badRequest msgPhoto, [])) := by
  refine ⟨?_, ?_, ?_, ?_⟩ <;> intros <;> simp_all [handler]

/-- Witness for C10: a request that is both missing the required
`position` field and carries a 12-digit national ID receives the
missing-required-fields message. -/
theorem c10_witness :
    handler env0 none reqMissingAndBadId = (.badRequest msgRequired, []) :=
  (c10_validation_precedence env0 none reqMissingAndBadId).1 (by rfl)

/-- Claim C5 (confirmed): stripping non-digits from
`"1-2345-67890-12-3"` yields the 13 digits `"1234567890123"` and such
a request is never rejected by the national-ID check, while a request
whose ID strips to 12 or 14 digits is answered with the national-ID
400 before any side effect; the application object stores the
normalized digit string. -/
theorem c5_national_id_normalization :
    normalizeIdCard "1-2345-67890-12-3" = "1234567890123"
    ∧ (∀ (env : Env) (cache : Option (Font × Font)) (r : Request),
        requiredMissing r = false →
        ((normalizeIdCard (r.id_card.getD "")).length = 12 ∨
          (normalizeIdCard (r.id_card.getD "")).length = 14) →
        handler env cache r = (.badRequest msgIdCard, []))
    ∧ (∀ (env : Env) (cache : Option (Font × Font)) (r : Request),
        requiredMissing r = false → r.id_card = some "1-2345-67890-12-3" →
        handler env cache r ≠ (.badRequest msgIdCard, []))
    ∧ (∀ (now : Nat) (r : Request),
        (mkApplication now r).personal_info.id_card =
          normalizeIdCard (r.id_card.getD "")) := by
  refine ⟨rfl, ?_, ?_, ?_⟩
  · intro env cache r h1 h2
    have hne : (normalizeIdCard (r.id_card.getD "")).length ≠ 13 := by
      rcases h2 with h | h <;> omega
    simp [handler, h1, hne]
  · intro env cache r h1 hid
    have h13 : (normalizeIdCard (r.id_card.getD "")).length = 13 := by
      rw [hid]
      rfl
    simp only [handler, h1, h13, Bool.false_eq_true, if_false, bne_self_eq_false]
    split
    · simp [msgEmail, msgIdCard]
    · split
      · simp [msgPhoto, msgIdCard]
      · split
        · simp [msgServerError, msgIdCard]
        · simp
  · intro now r
    rfl

/-- Witness for C5: the 12-digit request is rejected with the
national-ID message, the dashed 13-digit request is not, and the
stored ID of the valid request is the normalized string. -/
theorem c5_witness :
    handler env0 none req12 = (.badRequest msgIdCard, []) ∧
    handler env0 none reqValid ≠ (.badRequest msgIdCard, []) ∧
    (mkApplication 0 reqValid).personal_info.id_card =
      normalizeIdCard "1-2345-67890-12-3" :=
  ⟨c5_national_id_normalization.2.1 env0 none req12 (by rfl) (Or.inl (by rfl)),
   c5_national_id_normalization.2.2.1 env0 none reqValid (by rfl) rfl,
   c5_national_id_normalization.2.2.2 0 reqValid⟩

/-- Claim C7 (confirmed): any request failing a validation check is
answered with a 400 and an empty effect trace — no PDF is generated
and no email is attempted. -/
theorem c7_validation_fails_fast (env : Env) (cache : Option (Font × Font))
    (r : Request) (h : validationFails r = true) :
    (handler env cache r).1.isBadRequest = true ∧ (handler env cache r).2 = [] := by
  unfold handler
  by_cases h1 : requiredMissing r = true
  · simp [h1, Response.isBadRequest]
  · replace h1 : requiredMissing r = false := by simpa using h1
    by_cases h2 : (normalizeIdCard (r.id_card.getD "")).length = 13
    · by_cases h3 : emailRegexTest (r.email.getD "") = true
      · by_cases h4 : r.photo = true
        · exfalso
          simp [validationFails, h1, h2, h3, h4] at h
        · replace h4 : r.photo = false := by simpa using h4
          simp [h1, h2, h3, h4, Response.isBadRequest]
      · replace h3 : emailRegexTest (r.email.getD "") = false := by simpa using h3
        simp [h1, h2, h3, Response.isBadRequest]
    · simp [h1, h2, Response.isBadRequest]

/-- Witness for C7 at the request missing only the photo upload. -/
theorem c7_witness :
    (handler env0 none reqNoPhoto).1.isBadRequest = true ∧
    (handler env0 none reqNoPhoto).2 = [] :=
  c7_validation_fails_fast env0 none reqNoPhoto (by rfl)

/-- Claim C6 (confirmed): `sendEmail` reports SMTP failure by returning
`false` instead of rethrowing, and for a valid request whose fonts are
available the response is the 200 success payload carrying the
application id even when some email delivery fails. -/
theorem c6_delivery_independence (env : Env) (cache : Option (Font × Font))
    (r : Request) (hv : validationFails r = false)
    (hfonts : ∃ fonts, downloadThaiFont cache env = .ok fonts)
    (_hmail : env.applicantEmailOk = false ∨ env.adminEmailOk = false) :
    sendEmail false = false ∧
    handler env cache r =
      (.ok msgSuccess ("APP" ++ toString env.now),
       [.generatePDF, .sendApplicantEmail, .sendAdminEmail]) := by
  obtain ⟨fonts, hfonts⟩ := hfonts
  obtain ⟨h1, h2, h3, h4⟩ := validation_passes r hv
  refine ⟨rfl, ?_⟩
  simp [handler, h1, h2, h3, h4, generateJobApplicationPDF, hfonts, mkApplication]

/-- Witness for C6: both SMTP deliveries fail yet the response is the
200 success payload. -/
theorem c6_witness :
    sendEmail false = false ∧
    handler envEmailDown none reqValid =
      (.ok msgSuccess ("APP" ++ toString envEmailDown.now),
       [.generatePDF, .sendApplicantEmail, .sendAdminEmail]) :=
  c6_delivery_independence envEmailDown none reqValid (by rfl)
    ⟨("SarabunRegular", "SarabunBold"), by rfl⟩ (Or.inl (by rfl))

/-- Claim C8 (confirmed): with no cached font, when the primary and the
fallback downloads both fail, `downloadThaiFont` throws the
distinguishable `Cannot download Thai font` error, the generator
produces no document at all (no page, no bytes), and the handler
answers 500 having attempted nothing beyond the render. -/
theorem c8_font_failure_fatal (env : Env) (r : Request)
    (hp : env.fontPrimary = none) (hf : env.fontFallback = none)
    (hv : validationFails r = false) :
    downloadThaiFont none env = .error "Cannot download Thai font"
    ∧ (∀ app : Application,
        generateJobApplicationPDF none env app = .error "Cannot download Thai font")
    ∧ handler env none r = (.serverError msgServerError, [.generatePDF]) := by
  have hd : downloadThaiFont none env = .error "Cannot download Thai font" := by
    simp [downloadThaiFont, hp, hf]
  obtain ⟨h1, h2, h3, h4⟩ := validation_passes r hv
  refine ⟨hd, ?_, ?_⟩
  · intro app
    simp [generateJobApplicationPDF, hd]
  · simp [handler, h1, h2, h3, h4, generateJobApplicationPDF, hd]

/-- Witness for C8 in the environment where every download fails. -/
theorem c8_witness :
    downloadThaiFont none envNoFonts = .error "Cannot download Thai font" ∧
    handler envNoFonts none reqValid = (.serverError msgServerError, [.generatePDF]) := by
  have h := c8_font_failure_fatal envNoFonts reqValid (by rfl) (by rfl) (by rfl)
  exact ⟨h.1, h.2.2⟩

/-- `emit` appends one event at the current page and cursor. -/
lemma emit_evs (k : EKind) (st : St) :
    (emit k st).evs = st.evs ++ [⟨st.page, st.y, k⟩] := rfl

/-- `emitAt` appends one event at the current page and a fixed
coordinate. -/
lemma emitAt_evs (ypos : Nat) (k : EKind) (st : St) :
    (emitAt ypos k st).evs = st.evs ++ [⟨st.page, ypos, k⟩] := rfl

/-- `adv` leaves the event list unchanged. -/
lemma adv_evs (n : Nat) (st : St) : (adv n st).evs = st.evs := rfl

/-- `setY` leaves the event list unchanged. -/
lemma setY_evs (n : Nat) (st : St) : (setY n st).evs = st.evs := rfl

/-- The pagination check draws nothing. -/
lemma checkPageAt_evs (t : Nat) (st : St) : (checkPageAt t st).evs = st.evs := by
  unfold checkPageAt
  split <;> rfl

/-- `newPageTo` draws nothing. -/
lemma newPageTo_evs (reset : Nat) (st : St) :
    (newPageTo reset st).evs = st.evs := rfl

/-- After the classic pagination check the cursor is at most the
threshold (it is either unchanged and `≤ t`, or reset to 50). -/
lemma checkPageAt_y_le (t : Nat) (st : St) (h50 : 50 ≤ t) :
    (checkPageAt t st).y ≤ t := by
  unfold checkPageAt
  split
  · simpa using h50
  · simp only [not_lt] at *
    omega

/-- The pagination check never decreases the page index. -/
lemma checkPageAt_page_le (t : Nat) (st : St) :
    st.page ≤ (checkPageAt t st).page := by
  unfold checkPageAt
  split <;> simp

/-- Field events are `GoodK`. -/
lemma goodK_field (label d : String) : GoodK (.field label d) := ⟨rfl, by simp⟩

/-- Modern education items are `GoodK`. -/
lemma goodK_meduItem (l : EduLevel) : GoodK (.meduItem l) := ⟨rfl, by simp⟩

/-- Modern additional-info items are `GoodK`. -/
lemma goodK_maddItem (i : Nat) : GoodK (.maddItem i) := ⟨rfl, by simp⟩

/-- `SegOk` is reflexive. -/
lemma segOk_refl (st : St) : SegOk st st :=
  ⟨⟨[], by simp, by simp⟩, le_refl _⟩

/-- `SegOk` composes. -/
lemma segOk_trans {a b c : St} (h₁ : SegOk a b) (h₂ : SegOk b c) : SegOk a c := by
  obtain ⟨⟨l₁, he₁, hg₁⟩, hp₁⟩ := h₁
  obtain ⟨⟨l₂, he₂, hg₂⟩, hp₂⟩ := h₂
  refine ⟨⟨l₁ ++ l₂, ?_, ?_⟩, le_trans hp₁ hp₂⟩
  · rw [he₂, he₁, List.append_assoc]
  · intro e he
    rcases List.mem_append.1 he with h | h
    · exact ⟨(hg₁ e h).1, le_trans (hg₁ e h).2 hp₂⟩
    · exact hg₂ e h

/-- Emitting a `GoodK` kind is a valid segment. -/
lemma segOk_emit {k : EKind} {st : St} (hk : GoodK k) : SegOk st (emit k st) :=
  ⟨⟨[⟨st.page, st.y, k⟩], rfl, by
    intro e he
    rcases List.mem_singleton.1 he with rfl
    exact ⟨hk, le_refl _⟩⟩, le_refl _⟩

/-- Emitting a `GoodK` kind at a fixed coordinate is a valid
segment. -/
lemma segOk_emitAt {ypos : Nat} {k : EKind} {st : St} (hk : GoodK k) :
    SegOk st (emitAt ypos k st) :=
  ⟨⟨[⟨st.page, ypos, k⟩], rfl, by
    intro e he
    rcases List.mem_singleton.1 he with rfl
    exact ⟨hk, le_refl _⟩⟩, le_refl _⟩

/-- `adv` is a valid (empty) segment. -/
lemma segOk_adv (n : Nat) (st : St) : SegOk st (adv n st) :=
  ⟨⟨[], by simp [adv_evs], by simp⟩, le_refl _⟩

/-- `setY` is a valid (empty) segment. -/
lemma segOk_setY (n : Nat) (st : St) : SegOk st (setY n st) :=
  ⟨⟨[], by simp [setY_evs], by simp⟩, le_refl _⟩

/-- The pagination check is a valid (empty) segment. -/
lemma segOk_checkPageAt (t : Nat) (st : St) : SegOk st (checkPageAt t st) :=
  ⟨⟨[], by simp [checkPageAt_evs], by simp⟩, checkPageAt_page_le t st⟩

/-- `newPageTo` is a valid (empty) segment. -/
lemma segOk_newPageTo (reset : Nat) (st : St) : SegOk st (newPageTo reset st) :=
  ⟨⟨[], by simp [newPageTo_evs], by simp⟩, by simp [newPageTo]⟩

/-- A field draw is a valid segment. -/
lemma segOk_fieldEvN (label : String) (v : Option String) (n : Nat) (st : St) :
    SegOk st (fieldEvN label v n st) := by
  unfold fieldEvN
  exact segOk_trans (segOk_emit (goodK_field _ _)) (segOk_adv _ _)

/-- A guarded field draw is a valid segment. -/
lemma segOk_fieldIfEv (b : Bool) (label : String) (v : Option String)
    (n : Nat) (st : St) : SegOk st (fieldIfEv b label v n st) := by
  unfold fieldIfEv
  split
  · exact segOk_fieldEvN _ _ _ _
  · exact segOk_refl _

/-- A guarded field pair is a valid segment. -/
lemma segOk_fieldPairIf (b₁ : Bool) (l₁ : String) (v₁ : Option String)
    (b₂ : Bool) (l₂ : String) (v₂ : Option String) (st : St) :
    SegOk st (fieldPairIf b₁ l₁ v₁ b₂ l₂ v₂ st) := by
  unfold fieldPairIf
  split
  · split
    · exact segOk_trans (segOk_fieldEvN _ _ _ _) (segOk_fieldEvN _ _ _ _)
    · exact segOk_fieldEvN _ _ _ _
  · exact segOk_refl _

/-- The motivation block is a valid segment. -/
lemma segOk_motivStep (v : Option String) (st : St) :
    SegOk st (motivStep v st) := by
  unfold motivStep
  split
  · exact segOk_trans (segOk_emit (show GoodK .motivLabel from ⟨rfl, by simp⟩))
      (segOk_trans (segOk_adv _ _) (segOk_emit (show GoodK .motivText from ⟨rfl, by simp⟩)))
  · exact segOk_refl _

/-- A classic education slot line is a valid segment. -/
lemma segOk_classicEduSlot (label : String) (slot : EduSlot) (st : St) :
    SegOk st (classicEduSlot label slot st) := segOk_fieldIfEv _ _ _ _ _

/-- A modern education item is a valid segment. -/
lemma segOk_meduStep (slot : EduSlot) (l : EduLevel) (st : St) :
    SegOk st (meduStep slot l st) := by
  unfold meduStep
  split
  · exact segOk_trans (segOk_emit (goodK_meduItem _)) (segOk_adv _ _)
  · exact segOk_refl _

/-- A modern additional-info item is a valid segment. -/
lemma segOk_maddStep (b : Bool) (i : Nat) (st : St) :
    SegOk st (maddStep b i st) := by
  unfold maddStep
  split
  · exact segOk_trans (segOk_emit (goodK_maddItem _)) (segOk_adv _ _)
  · exact segOk_refl _

/-- The classic banner segment is valid. -/
lemma segOk_classicHeader : SegOk ⟨0, 0, []⟩ classicHeader := by
  unfold classicHeader
  refine segOk_trans ?_ (segOk_adv _ _)
  refine segOk_trans ?_ (segOk_emit ⟨rfl, by simp⟩)
  refine segOk_trans ?_ (segOk_setY _ _)
  refine segOk_trans ?_ (segOk_emitAt ⟨rfl, by simp⟩)
  exact segOk_emitAt ⟨rfl, by simp⟩

/-- The classic personal-information section is a valid segment. -/
lemma segOk_classicPersonal (app : Application) (st : St) :
    SegOk st (classicPersonal app st) := by
  unfold classicPersonal
  repeat
    first
    | exact segOk_refl _
    | refine segOk_trans ?_ (segOk_fieldEvN _ _ _ _)
    | refine segOk_trans ?_ (segOk_fieldIfEv _ _ _ _ _)
    | refine segOk_trans ?_ (segOk_adv _ _)
    | refine segOk_trans ?_ (segOk_emit ⟨rfl, by simp⟩)

/-- The classic education section is a valid segment. -/
lemma segOk_classicEduSec (app : Application) (st : St) :
    SegOk st (classicEduSec app st) := by
  unfold classicEduSec
  repeat
    first
    | exact segOk_refl _
    | refine segOk_trans ?_ (segOk_adv _ _)
    | refine segOk_trans ?_ (segOk_fieldIfEv _ _ _ _ _)
    | refine segOk_trans ?_ (segOk_classicEduSlot _ _ _)
    | refine segOk_trans ?_ (segOk_emit ⟨rfl, by simp⟩)
    | refine segOk_trans ?_ (segOk_checkPageAt _ _)

/-- The classic additional-information section is a valid segment. -/
lemma segOk_classicAddSec (app : Application) (st : St) :
    SegOk st (classicAddSec app st) := by
  unfold classicAddSec
  repeat
    first
    | exact segOk_refl _
    | refine segOk_trans ?_ (segOk_motivStep _ _)
    | refine segOk_trans ?_ (segOk_fieldIfEv _ _ _ _ _)
    | refine segOk_trans ?_ (segOk_fieldPairIf _ _ _ _ _ _ _)
    | refine segOk_trans ?_ (segOk_adv _ _)
    | refine segOk_trans ?_ (segOk_emit ⟨rfl, by simp⟩)
    | refine segOk_trans ?_ (segOk_checkPageAt _ _)

/-- The five draw calls of one classic work record, all issued at the
page that is current when the record starts. -/
lemma recordStep_evs (i : Nat) (w : WorkEntry) (st : St) :
    (recordStep i w st).evs = st.evs ++
      [⟨st.page, st.y, .wtitle i⟩,
       ⟨st.page, st.y + 18, .wfield i .company (jsOr w.company "-")⟩,
       ⟨st.page, st.y + 18 + 20, .wfield i .position (jsOr (some (jsOr w.position "-")) "-")⟩,
       ⟨st.page, st.y + 18 + 20 + 20,
        .wfield i .duration (jsOr (some (jsOr w.start "-" ++ " to " ++ jsOr w.end_ "-")) "-")⟩,
       ⟨st.page, st.y + 18 + 20 + 20 + 20,
        .wfield i .reason (jsOr (some (jsOr w.reason "-")) "-")⟩] := by
  unfold recordStep
  rw [checkPageAt_evs]
  simp [wfieldEvN, emit, adv]

/-- After one record and its trailing page check the cursor is back
below the threshold. -/
lemma recordStep_y_le (i : Nat) (w : WorkEntry) (st : St) :
    (recordStep i w st).y ≤ 650 := by
  unfold recordStep
  exact checkPageAt_y_le 650 _ (by omega)

/-- One record never decreases the page index. -/
lemma recordStep_page_le (i : Nat) (w : WorkEntry) (st : St) :
    st.page ≤ (recordStep i w st).page := by
  unfold recordStep
  have h : (st |> emit (.wtitle i) |> adv 18
      |> wfieldEvN i .company w.company 20
      |> wfieldEvN i .position (some (jsOr w.position "-")) 20
      |> wfieldEvN i .duration
          (some (jsOr w.start "-" ++ " to " ++ jsOr w.end_ "-")) 20
      |> wfieldEvN i .reason (some (jsOr w.reason "-")) 25).page
      = st.page := by
    simp [wfieldEvN, emit, adv]
  calc st.page = _ := h.symm
    _ ≤ _ := checkPageAt_page_le 650 _

/-- Unfolding one step of the classic record loop. -/
lemma workLoop_cons (i : Nat) (w : WorkEntry) (rest : List WorkEntry) (st : St) :
    workLoop i (w :: rest) st = workLoop (i + 1) rest (recordStep i w st) := rfl

/-- Full specification of the classic record loop: it only appends
events; every appended event carries a record index at least the
starting index, sits at a vertical coordinate of at most 753, and lands
on the page assigned to its record by a single page-assignment
function — so the events of one record are never split across pages.
The cursor stays at most 675 at every record start. -/
lemma workLoop_spec (ws : List WorkEntry) :
    ∀ (i : Nat) (st : St), st.y ≤ 675 →
    ∃ (l : List Event) (pfun : Nat → Nat),
      (workLoop i ws st).evs = st.evs ++ l
      ∧ st.page ≤ (workLoop i ws st).page
      ∧ (workLoop i ws st).y ≤ 675
      ∧ ∀ e ∈ l, ∃ j, recIdxOf e.kind = some j ∧ i ≤ j ∧ e.y ≤ 753
          ∧ e.page = pfun j ∧ e.page ≤ (workLoop i ws st).page := by
  induction ws with
  | nil =>
    intro i st hy
    exact ⟨[], fun _ => 0, by simp [workLoop], le_refl _, hy, by simp⟩
  | cons w rest ih =>
    intro i st hy
    have hre := recordStep_evs i w st
    have hry := recordStep_y_le i w st
    have hrp := recordStep_page_le i w st
    obtain ⟨l', pfun', hevs', hpage', hy', hall'⟩ :=
      ih (i + 1) (recordStep i w st) (by omega)
    rw [workLoop_cons]
    refine ⟨[⟨st.page, st.y, .wtitle i⟩,
             ⟨st.page, st.y + 18, .wfield i .company (jsOr w.company "-")⟩,
             ⟨st.page, st.y + 18 + 20,
              .wfield i .position (jsOr (some (jsOr w.position "-")) "-")⟩,
             ⟨st.page, st.y + 18 + 20 + 20,
              .wfield i .duration
                (jsOr (some (jsOr w.start "-" ++ " to " ++ jsOr w.end_ "-")) "-")⟩,
             ⟨st.page, st.y + 18 + 20 + 20 + 20,
              .wfield i .reason (jsOr (some (jsOr w.reason "-")) "-")⟩] ++ l',
           fun j => if j = i then st.page else pfun' j, ?_, ?_, hy', ?_⟩
    · rw [hevs', hre, List.append_assoc]
    · exact le_trans hrp hpage'
    · intro e he
      have hfinal : st.page ≤ (workLoop (i + 1) rest (recordStep i w st)).page :=
        le_trans hrp hpage'
      rcases List.mem_append.1 he with h5 | hrest
      · simp only [List.mem_cons, List.mem_singleton, List.not_mem_nil,
          or_false] at h5
        rcases h5 with rfl | rfl | rfl | rfl | rfl <;>
          exact ⟨i, rfl, le_refl i, by simp only [Event.y]; omega, by simp, hfinal⟩
      · obtain ⟨j, hj, hij, hyj, hpg, hle⟩ := hall' e hrest
        refine ⟨j, hj, by omega, hyj, ?_, hle⟩
        rw [hpg]
        have : j ≠ i := by omega
        simp [this]

/-- Events carrying a record index are record content, never a
footer. -/
lemma ne_footer_of_recIdx {k : EKind} {j : Nat} (h : recIdxOf k = some j) :
    k ≠ .footer := by
  intro hk
  subst hk
  simp [recIdxOf] at h

/-- Specification of the classic work-experience section: it appends
its events, never decreases the page index, draws no footer, and all
record-indexed events respect a single page assignment (atomicity) and
stay above 753. -/
lemma classicWorkSec_spec (app : Application) (st : St) :
    ∃ (l : List Event) (pfun : Nat → Nat),
      (classicWorkSec app st).evs = st.evs ++ l
      ∧ st.page ≤ (classicWorkSec app st).page
      ∧ ∀ e ∈ l, e.kind ≠ .footer ∧ e.page ≤ (classicWorkSec app st).page
          ∧ ∀ j, recIdxOf e.kind = some j → e.y ≤ 753 ∧ e.page = pfun j := by
  unfold classicWorkSec
  split
  · have hseg : SegOk st (st |> checkPageAt 650 |> emit (.sectionHeader .work)
        |> adv 25 |> emit .noData |> adv 25) := by
      refine segOk_trans ?_ (segOk_adv _ _)
      refine segOk_trans ?_ (segOk_emit ⟨rfl, by simp⟩)
      refine segOk_trans ?_ (segOk_adv _ _)
      refine segOk_trans ?_ (segOk_emit ⟨rfl, by simp⟩)
      exact segOk_checkPageAt _ _
    obtain ⟨⟨l, hevs, hall⟩, hp⟩ := hseg
    refine ⟨l, fun _ => 0, hevs, hp, ?_⟩
    intro e he
    obtain ⟨⟨hnone, hnf⟩, hple⟩ := hall e he
    exact ⟨hnf, hple, fun j hj => by simp [hnone] at hj⟩
  · have hy0 : (st |> checkPageAt 650 |> emit (.sectionHeader .work)
        |> adv 25).y ≤ 675 := by
      have hc := checkPageAt_y_le 650 st (by omega)
      simp only [adv, emit]
      omega
    obtain ⟨l', pfun, hevs', hpage', _hy', hall'⟩ :=
      workLoop_spec app.work_experience 0
        (st |> checkPageAt 650 |> emit (.sectionHeader .work) |> adv 25) hy0
    have hevs0 : (st |> checkPageAt 650 |> emit (.sectionHeader .work)
        |> adv 25).evs = st.evs ++
          [⟨(checkPageAt 650 st).page, (checkPageAt 650 st).y,
            .sectionHeader .work⟩] := by
      simp [adv, emit, checkPageAt_evs]
    have hpg0 : (st |> checkPageAt 650 |> emit (.sectionHeader .work)
        |> adv 25).page = (checkPageAt 650 st).page := by
      simp [adv, emit]
    refine ⟨[⟨(checkPageAt 650 st).page, (checkPageAt 650 st).y,
             .sectionHeader .work⟩] ++ l', pfun, ?_, ?_, ?_⟩
    · rw [hevs', hevs0, List.append_assoc]
    · exact le_trans (checkPageAt_page_le 650 st) (hpg0 ▸ hpage')
    · intro e he
      rcases List.mem_append.1 he with h1 | h1
      · rcases List.mem_singleton.1 h1 with rfl
        refine ⟨by simp, ?_, fun j hj => by simp [recIdxOf] at hj⟩
        exact le_trans (le_of_eq hpg0.symm) hpage'
      · obtain ⟨j, hj, _hij, hyj, hpgj, hle⟩ := hall' e h1
        refine ⟨ne_footer_of_recIdx hj, hle, ?_⟩
        intro j' hj'
        rw [hj] at hj'
        rcases Option.some_inj.1 hj' with rfl
        exact ⟨hyj, hpgj⟩

/-- `emitAt` keeps the page. -/
lemma emitAt_page (ypos : Nat) (k : EKind) (st : St) :
    (emitAt ypos k st).page = st.page := rfl

/-- Global structure of the classic document: the trace is a
footer-free body followed by exactly one footer event, drawn at the
fixed coordinate 750 on the final page; every body event lies on an
existing page, and every record-indexed body event respects a single
per-record page assignment and stays above 753. -/
lemma classicRender_spec (app : Application) :
    ∃ (l : List Event) (pfun : Nat → Nat),
      (classicRender app).evs = l ++ [⟨(classicRender app).page, 750, .footer⟩]
      ∧ ∀ e ∈ l, e.kind ≠ .footer ∧ e.page ≤ (classicRender app).page
          ∧ ∀ j, recIdxOf e.kind = some j → e.y ≤ 753 ∧ e.page = pfun j := by
  obtain ⟨⟨l₀, he₀, hg₀⟩, hp₀⟩ :=
    segOk_trans segOk_classicHeader
      (segOk_trans (segOk_classicPersonal app classicHeader)
        (segOk_classicEduSec app (classicPersonal app classicHeader)))
  obtain ⟨l₁, pfun, he₁, hp₁, hall₁⟩ :=
    classicWorkSec_spec app
      (classicEduSec app (classicPersonal app classicHeader))
  obtain ⟨⟨l₂, he₂, hg₂⟩, hp₂⟩ :=
    segOk_classicAddSec app
      (classicWorkSec app (classicEduSec app (classicPersonal app classicHeader)))
  have hpage : (classicRender app).page =
      (classicAddSec app (classicWorkSec app
        (classicEduSec app (classicPersonal app classicHeader)))).page := rfl
  have hevs : (classicRender app).evs =
      (classicAddSec app (classicWorkSec app
        (classicEduSec app (classicPersonal app classicHeader)))).evs ++
      [⟨(classicRender app).page, 750, .footer⟩] := rfl
  refine ⟨(l₀ ++ l₁) ++ l₂, pfun, ?_, ?_⟩
  · rw [hevs, he₂, he₁, he₀]
    simp
  · intro e he
    rw [hpage]
    rcases List.mem_append.1 he with h01 | h2
    · rcases List.mem_append.1 h01 with h0 | h1
      · obtain ⟨⟨hnone, hnf⟩, hple⟩ := hg₀ e h0
        exact ⟨hnf, le_trans hple (le_trans hp₁ hp₂),
          fun j hj => by simp [hnone] at hj⟩
      · obtain ⟨hnf, hple, hrec⟩ := hall₁ e h1
        exact ⟨hnf, le_trans hple hp₂, hrec⟩
    · obtain ⟨⟨hnone, hnf⟩, hple⟩ := hg₂ e h2
      exact ⟨hnf, hple, fun j hj => by simp [hnone] at hj⟩

/-- A segment extension yields an event-list extension. -/
lemma extEvs_of_segOk {st st' : St} (h : SegOk st st') : ExtEvs st st' := by
  obtain ⟨⟨l, hl, _⟩, _⟩ := h
  exact ⟨l, hl⟩

/-- `ExtEvs` composes. -/
lemma extEvs_trans {a b c : St} (h₁ : ExtEvs a b) (h₂ : ExtEvs b c) :
    ExtEvs a c := by
  obtain ⟨l₁, hl₁⟩ := h₁
  obtain ⟨l₂, hl₂⟩ := h₂
  exact ⟨l₁ ++ l₂, by rw [hl₂, hl₁, List.append_assoc]⟩

/-- `emitAt` only appends. -/
lemma extEvs_emitAt (ypos : Nat) (k : EKind) (st : St) :
    ExtEvs st (emitAt ypos k st) := ⟨[⟨st.page, ypos, k⟩], rfl⟩

/-- `emit` only appends. -/
lemma extEvs_emit (k : EKind) (st : St) : ExtEvs st (emit k st) :=
  ⟨[⟨st.page, st.y, k⟩], rfl⟩

/-- `adv` only appends (nothing). -/
lemma extEvs_adv (n : Nat) (st : St) : ExtEvs st (adv n st) := ⟨[], by simp [adv_evs]⟩

/-- `setY` only appends (nothing). -/
lemma extEvs_setY (n : Nat) (st : St) : ExtEvs st (setY n st) := ⟨[], by simp [setY_evs]⟩

/-- The pagination check only appends (nothing). -/
lemma extEvs_checkPageAt (t : Nat) (st : St) : ExtEvs st (checkPageAt t st) :=
  ⟨[], by simp [checkPageAt_evs]⟩

/-- `newPageTo` only appends (nothing). -/
lemma extEvs_newPageTo (reset : Nat) (st : St) : ExtEvs st (newPageTo reset st) :=
  ⟨[], by simp [newPageTo_evs]⟩

/-- The classic work-experience section only appends. -/
lemma extEvs_classicWorkSec (app : Application) (st : St) :
    ExtEvs st (classicWorkSec app st) := by
  obtain ⟨l, _, hevs, _⟩ := classicWorkSec_spec app st
  exact ⟨l, hevs⟩

/-- An event witnessing a property survives any extension. -/
lemma exists_kind_mono {P : Event → Prop} {st st' : St} (hext : ExtEvs st st')
    (h : ∃ e ∈ st.evs, P e) : ∃ e ∈ st'.evs, P e := by
  obtain ⟨l, hl⟩ := hext
  obtain ⟨e, he, hp⟩ := h
  exact ⟨e, by rw [hl]; exact List.mem_append.2 (Or.inl he), hp⟩

/-- The event a field draw appends. -/
lemma mem_fieldEvN_self (label : String) (v : Option String) (n : Nat) (st : St) :
    ∃ e ∈ (fieldEvN label v n st).evs, e.kind = .field label (jsOr v "-") := by
  refine ⟨⟨st.page, st.y, .field label (jsOr v "-")⟩, ?_, rfl⟩
  simp [fieldEvN, adv, emit]

/-- The Address field is drawn by every classic render, whatever the
application contains. -/
lemma address_field_mem (app : Application) :
    ∃ e ∈ (classicRender app).evs,
      e.kind = .field "Address:" (jsOr app.personal_info.address.full "-") := by
  have h1 : ∃ e ∈ (classicPersonal app classicHeader).evs,
      e.kind = .field "Address:" (jsOr app.personal_info.address.full "-") := by
    unfold classicPersonal
    apply exists_kind_mono (extEvs_of_segOk (segOk_fieldEvN _ _ _ _))
    exact mem_fieldEvN_self _ _ _ _
  unfold classicRender
  apply exists_kind_mono (extEvs_emitAt _ _ _)
  apply exists_kind_mono (extEvs_of_segOk (segOk_classicAddSec _ _))
  apply exists_kind_mono (extEvs_classicWorkSec _ _)
  apply exists_kind_mono (extEvs_of_segOk (segOk_classicEduSec _ _))
  exact h1

/-- Claim C1 (corrected, amended part): record atomicity does hold —
any two draw events of the same work-experience record land on the same
page, and record content never exceeds the vertical coordinate 753, so
a record is never split by the explicit page breaks nor pushed past the
physical page.  (The mechanism, however, is a check run after the whole
record is drawn, not a height check before drawing; see the
counterexample.) -/
theorem c1_record_atomicity (app : Application) (i : Nat) (e₁ e₂ : Event)
    (h₁ : e₁ ∈ (classicRender app).evs) (h₂ : e₂ ∈ (classicRender app).evs)
    (hk₁ : recIdxOf e₁.kind = some i) (hk₂ : recIdxOf e₂.kind = some i) :
    e₁.page = e₂.page ∧ e₁.y ≤ 753 := by
  obtain ⟨l, pfun, hevs, hall⟩ := classicRender_spec app
  have mem₁ : e₁ ∈ l := by
    rw [hevs] at h₁
    rcases List.mem_append.1 h₁ with h | h
    · exact h
    · rcases List.mem_singleton.1 h with rfl
      simp [recIdxOf] at hk₁
  have mem₂ : e₂ ∈ l := by
    rw [hevs] at h₂
    rcases List.mem_append.1 h₂ with h | h
    · exact h
    · rcases List.mem_singleton.1 h with rfl
      simp [recIdxOf] at hk₂
  obtain ⟨-, -, hrec₁⟩ := hall e₁ mem₁
  obtain ⟨-, -, hrec₂⟩ := hall e₂ mem₂
  obtain ⟨hy₁, hp₁⟩ := hrec₁ i hk₁
  obtain ⟨-, hp₂⟩ := hrec₂ i hk₂
  exact ⟨hp₁.trans hp₂.symm, hy₁⟩

/-- Witness for C1: the title and the reason field of record 0 of the
three-record application share page 0. -/
theorem c1_witness :
    ((⟨0, 535, .wtitle 0⟩ : Event).page =
      (⟨0, 613, .wfield 0 .reason "relocation"⟩ : Event).page)
    ∧ (⟨0, 535, .wtitle 0⟩ : Event).y ≤ 753 :=
  c1_record_atomicity appMulti 0 _ _ (by decide) (by decide) rfl rfl

/-- Counterexample for C1 as stated: in the three-record application,
record 1 does not fit in the space remaining before the generator's
own 650-point pagination threshold, yet none of its fields move to the
next page — they are all drawn on page 0, crossing the threshold
(draw-then-check), and only record 2 starts on page 1.  Had the unit's
height been computed and checked against remaining space before any of
its fields were drawn, as the claim states, no record content could
appear past the threshold and record 1 would have been placed on the
next page in its entirety. -/
theorem c1_counterexample :
    (¬ ∀ e ∈ (classicRender appMulti).evs,
        recIdxOf e.kind = some 1 → e.y ≤ 650)
    ∧ (∀ e ∈ (classicRender appMulti).evs,
        recIdxOf e.kind = some 1 → e.page = 0)
    ∧ ¬ (∀ e ∈ (classicRender appMulti).evs,
        recIdxOf e.kind = some 2 → e.page = 0) := by decide

/-- Claim C9 (corrected, amended part): the classic generator draws the
footer exactly once, at the fixed coordinate 750 on the page that is
current when rendering ends — the last page of the document (no event
lies on a later page). -/
theorem c9_footer_last_page (app : Application) :
    (classicRender app).evs.filter (fun e => e.kind == .footer) =
      [⟨(classicRender app).page, 750, .footer⟩]
    ∧ ∀ e ∈ (classicRender app).evs, e.page ≤ (classicRender app).page := by
  obtain ⟨l, pfun, hevs, hall⟩ := classicRender_spec app
  constructor
  · rw [hevs, List.filter_append]
    have hl : l.filter (fun e => e.kind == .footer) = [] := by
      rw [List.filter_eq_nil_iff]
      intro e he
      have hne := (hall e he).1
      simp [hne]
    rw [hl]
    simp
  · intro e he
    rw [hevs] at he
    rcases List.mem_append.1 he with h | h
    · exact (hall e h).2.1
    · rcases List.mem_singleton.1 h with rfl
      exact le_refl _

/-- Witness for C9 at the no-work-experience application: one footer on
the final page, and the banner event lies on an existing page. -/
theorem c9_witness :
    (classicRender appNoWork).evs.filter (fun e => e.kind == .footer) =
      [⟨(classicRender appNoWork).page, 750, .footer⟩]
    ∧ (⟨0, 30, .headerTitle⟩ : Event).page ≤ (classicRender appNoWork).page :=
  ⟨(c9_footer_last_page appNoWork).1,
   (c9_footer_last_page appNoWork).2 ⟨0, 30, .headerTitle⟩ (by decide)⟩

/-- Counterexample for C9 as stated: the three-record application
spills onto a second page, and page 0 carries no footer event at all —
the footer is not re-drawn per page. -/
theorem c9_counterexample :
    0 < (classicRender appMulti).page
    ∧ ¬ (∀ p ≤ (classicRender appMulti).page,
        ∃ e ∈ (classicRender appMulti).evs, e.page = p ∧ e.kind = .footer) := by
  decide

/-- Claim C3 (corrected, amended part): `addField` always draws — for
an empty or absent value it emits the label with the placeholder text
`-` and the caller still advances the cursor by its fixed amount; in
particular the unguarded Address field of the personal-information
section is drawn as `-` in every render of an application whose
address is empty. -/
theorem c3_field_rendering (label : String) (v : Option String) (n : Nat)
    (st : St) (app : Application) (hv : falsy v = true)
    (haddr : falsy app.personal_info.address.full = true) :
    (fieldEvN label v n st).evs = st.evs ++ [⟨st.page, st.y, .field label "-"⟩]
    ∧ (fieldEvN label v n st).y = st.y + n
    ∧ ∃ e ∈ (classicRender app).evs, e.kind = .field "Address:" "-" := by
  have hjs : jsOr v "-" = "-" := by simp [jsOr, hv]
  refine ⟨by simp [fieldEvN, emit, adv, hjs], rfl, ?_⟩
  have hmem := address_field_mem app
  rw [show jsOr app.personal_info.address.full "-" = "-" from by
    simp [jsOr, haddr]] at hmem
  exact hmem

/-- Witness for C3 at a concrete empty field and the concrete
application with an absent address. -/
theorem c3_witness :
    (fieldEvN "Address:" none 20 ⟨0, 100, []⟩).evs =
      [⟨0, 100, .field "Address:" "-"⟩]
    ∧ (fieldEvN "Address:" none 20 ⟨0, 100, []⟩).y = 120
    ∧ ∃ e ∈ (classicRender appNoWork).evs, e.kind = .field "Address:" "-" :=
  c3_field_rendering "Address:" none 20 ⟨0, 100, []⟩ appNoWork rfl (by decide)

/-- Counterexample for C3 as stated: the application submitted with no
address has a falsy address value, yet the classic render still
contains a draw call for the Address field (with the `-` placeholder)
— the empty field is not a no-op. -/
theorem c3_counterexample :
    falsy appNoWork.personal_info.address.full = true
    ∧ ¬ (∀ e ∈ (classicRender appNoWork).evs,
        e.kind ≠ .field "Address:" "-") := by decide

/-- A modern education item only appends. -/
lemma extEvs_meduStep (slot : EduSlot) (l : EduLevel) (st : St) :
    ExtEvs st (meduStep slot l st) := extEvs_of_segOk (segOk_meduStep slot l st)

/-- A modern additional-info item only appends. -/
lemma extEvs_maddStep (b : Bool) (i : Nat) (st : St) :
    ExtEvs st (maddStep b i st) := extEvs_of_segOk (segOk_maddStep b i st)

/-- The modern additional-info section only appends. -/
lemma extEvs_mAddSec (app : Application) (st : St) :
    ExtEvs st (mAddSec app st) := by
  unfold mAddSec
  split
  · refine extEvs_trans (extEvs_trans (extEvs_trans ?_ (extEvs_maddStep _ _ _))
      (extEvs_maddStep _ _ _)) (extEvs_maddStep _ _ _)
    exact extEvs_trans
      (extEvs_trans (extEvs_emit _ _) (extEvs_adv _ _)) (extEvs_maddStep _ _ _)
  · exact ⟨[], by simp⟩

/-- The guarded reason line only appends. -/
lemma extEvs_mRecordWreason (i : Nat) (w : WorkEntry) (st : St) :
    ExtEvs st (mRecordWreason i w st) := by
  unfold mRecordWreason
  split
  · exact extEvs_trans (extEvs_emit _ _) (extEvs_adv _ _)
  · exact ⟨[], by simp⟩

/-- The modern in-loop page check only appends. -/
lemma extEvs_mRecordCheck (total i : Nat) (st : St) :
    ExtEvs st (mRecordCheck total i st) := by
  unfold mRecordCheck
  split
  · exact extEvs_trans (extEvs_newPageTo _ _)
      (extEvs_trans (extEvs_emit _ _) (extEvs_adv _ _))
  · exact ⟨[], by simp⟩

/-- One modern work record only appends. -/
lemma extEvs_mRecordStep (total i : Nat) (w : WorkEntry) (st : St) :
    ExtEvs st (mRecordStep total i w st) := by
  unfold mRecordStep
  refine extEvs_trans ?_ (extEvs_mRecordCheck _ _ _)
  refine extEvs_trans ?_ (extEvs_adv _ _)
  refine extEvs_trans ?_ (extEvs_mRecordWreason _ _ _)
  refine extEvs_trans ?_ (extEvs_adv _ _)
  refine extEvs_trans ?_ (extEvs_emit _ _)
  refine extEvs_trans ?_ (extEvs_adv _ _)
  refine extEvs_trans ?_ (extEvs_emit _ _)
  refine extEvs_trans ?_ (extEvs_adv _ _)
  refine extEvs_trans ?_ (extEvs_emit _ _)
  exact extEvs_emit _ _

/-- The modern record loop only appends. -/
lemma extEvs_mWorkLoop (ws : List WorkEntry) :
    ∀ (total i : Nat) (st : St), ExtEvs st (mWorkLoop total i ws st) := by
  induction ws with
  | nil => intro total i st; exact ⟨[], by simp [mWorkLoop]⟩
  | cons w rest ih =>
    intro total i st
    exact extEvs_trans (extEvs_mRecordStep total i w st) (ih total (i + 1) _)

/-- The modern work-experience body only appends. -/
lemma extEvs_mWorkBody (app : Application) (st : St) :
    ExtEvs st (mWorkBody app st) := by
  unfold mWorkBody
  split
  · exact extEvs_trans (extEvs_emit _ _) (extEvs_adv _ _)
  · exact extEvs_mWorkLoop _ _ _ _

/-- The modern motivation block only appends. -/
lemma extEvs_mMotiv (app : Application) (st : St) :
    ExtEvs st (mMotiv app st) := by
  unfold mMotiv
  split
  · refine extEvs_trans ?_ (extEvs_emit _ _)
    refine extEvs_trans (extEvs_trans ?_ (extEvs_emit _ _)) (extEvs_adv _ _)
    split
    · exact extEvs_newPageTo _ _
    · exact ⟨[], by simp⟩
  · exact ⟨[], by simp⟩

/-- The event `emit` itself appends. -/
lemma mem_emit_self (k : EKind) (st : St) :
    ∃ e ∈ (emit k st).evs, e.kind = k :=
  ⟨⟨st.page, st.y, k⟩, by simp [emit], rfl⟩

/-- One modern education item advances `leftY` by at most 45. -/
lemma meduStep_y_le (slot : EduSlot) (l : EduLevel) (st : St) :
    (meduStep slot l st).y ≤ st.y + 45 := by
  unfold meduStep
  split
  · simp [adv, emit]
  · omega

/-- `leftY` is at most 627 when the modern additional-info guard runs:
447 after the fixed address/education headers plus at most four
45-point education items — so the `leftY < 650` guard can never
fail. -/
lemma mLeftPre_y_le (app : Application) : (mLeftPre app).y ≤ 627 := by
  unfold mLeftPre
  have h0 : mLeftHdr.y = 447 := rfl
  have h1 := meduStep_y_le app.education.high_school .highSchool mLeftHdr
  have h2 := meduStep_y_le app.education.vocational .vocational
    (meduStep app.education.high_school .highSchool mLeftHdr)
  have h3 := meduStep_y_le app.education.bachelor .bachelor
    (meduStep app.education.vocational .vocational
      (meduStep app.education.high_school .highSchool mLeftHdr))
  have h4 := meduStep_y_le app.education.other .other
    (meduStep app.education.bachelor .bachelor
      (meduStep app.education.vocational .vocational
        (meduStep app.education.high_school .highSchool mLeftHdr)))
  omega

/-- The modern work header only appends. -/
lemma extEvs_mWorkHdr (st : St) : ExtEvs st (mWorkHdr st) := by
  unfold mWorkHdr
  exact extEvs_trans (extEvs_setY _ _)
    (extEvs_trans (extEvs_emit _ _) (extEvs_adv _ _))

/-- The modern right column only appends. -/
lemma extEvs_mRight (app : Application) (st : St) : ExtEvs st (mRight app st) := by
  unfold mRight
  exact extEvs_trans (extEvs_mWorkHdr _)
    (extEvs_trans (extEvs_mWorkBody _ _) (extEvs_mMotiv _ _))

/-- When the guard holds (as it always does), the modern additional
section draws its header. -/
lemma mAddSec_mem (app : Application) (st : St) (hy : st.y < 650) :
    ∃ e ∈ (mAddSec app st).evs, e.kind = .msec .additional := by
  unfold mAddSec
  rw [if_pos hy]
  apply exists_kind_mono (extEvs_maddStep _ _ _)
  apply exists_kind_mono (extEvs_maddStep _ _ _)
  apply exists_kind_mono (extEvs_maddStep _ _ _)
  apply exists_kind_mono (extEvs_maddStep _ _ _)
  apply exists_kind_mono (extEvs_adv _ _)
  exact mem_emit_self _ _

/-- With an empty work-experience list the modern body draws the
placeholder. -/
lemma mWorkBody_noWork (app : Application) (st : St)
    (hw : app.work_experience = []) :
    ∃ e ∈ (mWorkBody app st).evs, e.kind = .mnoWork := by
  unfold mWorkBody
  simp only [hw, List.isEmpty_nil, if_true]
  apply exists_kind_mono (extEvs_adv _ _)
  exact mem_emit_self _ _

/-- Claim C2 (corrected, amended part): in the modern generator every
application gets all four section headers — address (the
personal-information block), education, additional information (whose
`leftY < 650` guard can never fail since `leftY ≤ 627`), and work
experience — and the work-experience section draws its
`ไม่มีประสบการณ์ทำงาน` placeholder when the record list is empty.
(Only the work section has such a placeholder; see the
counterexample.) -/
theorem c2_section_presence (app : Application) :
    (∃ e ∈ (renderModern app).evs, e.kind = .msec .address)
    ∧ (∃ e ∈ (renderModern app).evs, e.kind = .msec .education)
    ∧ (∃ e ∈ (renderModern app).evs, e.kind = .msec .additional)
    ∧ (∃ e ∈ (renderModern app).evs, e.kind = .msec .work)
    ∧ (app.work_experience = [] →
        ∃ e ∈ (renderModern app).evs, e.kind = .mnoWork) := by
  have hextLeft : ExtEvs mLeftHdr (mLeftPre app) := by
    unfold mLeftPre
    refine extEvs_trans ?_ (extEvs_meduStep _ _ _)
    refine extEvs_trans ?_ (extEvs_meduStep _ _ _)
    refine extEvs_trans ?_ (extEvs_meduStep _ _ _)
    exact extEvs_meduStep _ _ _
  have hfromLeftHdr : ∀ k : EKind, (∃ e ∈ mLeftHdr.evs, e.kind = k) →
      ∃ e ∈ (renderModern app).evs, e.kind = k := by
    intro k hk
    unfold renderModern
    apply exists_kind_mono (extEvs_emitAt _ _ _)
    apply exists_kind_mono (extEvs_mRight _ _)
    apply exists_kind_mono (extEvs_mAddSec _ _)
    exact exists_kind_mono hextLeft hk
  refine ⟨hfromLeftHdr _ (by decide), hfromLeftHdr _ (by decide), ?_, ?_, ?_⟩
  · unfold renderModern
    apply exists_kind_mono (extEvs_emitAt _ _ _)
    apply exists_kind_mono (extEvs_mRight _ _)
    exact mAddSec_mem app _ (lt_of_le_of_lt (mLeftPre_y_le app) (by omega))
  · unfold renderModern
    apply exists_kind_mono (extEvs_emitAt _ _ _)
    unfold mRight
    apply exists_kind_mono (extEvs_mMotiv _ _)
    apply exists_kind_mono (extEvs_mWorkBody _ _)
    unfold mWorkHdr
    apply exists_kind_mono (extEvs_adv _ _)
    exact mem_emit_self _ _
  · intro hw
    unfold renderModern
    apply exists_kind_mono (extEvs_emitAt _ _ _)
    unfold mRight
    apply exists_kind_mono (extEvs_mMotiv _ _)
    exact mWorkBody_noWork app _ hw

/-- Witness for C2 at the application with no work experience: the
address header is drawn and the work placeholder appears. -/
theorem c2_witness :
    (∃ e ∈ (renderModern appNoWork).evs, e.kind = .msec .address)
    ∧ (∃ e ∈ (renderModern appNoWork).evs, e.kind = .mnoWork) :=
  ⟨(c2_section_presence appNoWork).1,
   (c2_section_presence appNoWork).2.2.2.2 (by decide)⟩

/-- Counterexample for C2 as stated: the application with one work
record and zero education entries renders an education section that is
a bare header — no education content and no `no data` placeholder
anywhere in the document — so a section with zero qualifying data is
not given a placeholder line. -/
theorem c2_counterexample :
    (∃ e ∈ (renderModern appOneJob).evs, e.kind = .msec .education)
    ∧ (∀ e ∈ (renderModern appOneJob).evs, isEduItem e.kind = false)
    ∧ (∀ e ∈ (renderModern appOneJob).evs, e.kind ≠ .mnoWork) := by decide
